import Mathlib

/-
  Shallow embedding of `src/App.tsx` of ditto-assistant/image-similarity-web.

  The component's reactive signals become the fields of `AppState`; the
  event handlers (`captureBefore`, `captureAfter`, `reset`, `switchCamera`,
  `loadModel`, `setupCamera`, `updateSimilarityScore`) become state
  transformers.  External collaborators are parameters: the frame the
  video element would yield is an `Option Frame` argument (`captureImage`
  returns `null` when the video ref is absent), the embedder model is an
  oracle `embed : Frame → List ℝ`, and the asynchronous outcomes of
  camera acquisition and model loading are explicit result values.
  JavaScript numbers are modelled as real numbers.
-/

namespace ImageSimilarity

/-- The reactive state of the `App` component: one field per `createSignal`
(lines 10–19 of App.tsx) plus the module-level mutable `model` handle
(line 8), modelled as a `Bool` recording whether the handle is set. -/
structure AppState (Frame : Type) where
  beforeImageCapture : Option Frame
  afterImageCapture : Option Frame
  currentFacingMode : String
  similarity : ℝ
  errorMessage : String
  isMobileDevice : Bool
  showLiveFeed : Bool
  isModelLoading : Bool
  isPortrait : Bool
  model : Bool

/-- The initial signal values (App.tsx lines 10–19): no captures, facing
mode `'user'`, similarity `0`, empty error, live feed shown, model loading
flag `true`, model handle unset. -/
def initState (Frame : Type) (portrait : Bool) : AppState Frame :=
  { beforeImageCapture := none
    afterImageCapture := none
    currentFacingMode := "user"
    similarity := 0
    errorMessage := ""
    isMobileDevice := false
    showLiveFeed := true
    isModelLoading := true
    isPortrait := portrait
    model := false }

/-- Outcome of the asynchronous `navigator.mediaDevices.getUserMedia` call
inside `setupCamera`: success (after which `isMobileDevice` is set from the
user agent) or failure with an error message. -/
inductive CameraResult where
  | success (mobileDevice : Bool)
  | failure (message : String)

variable {Frame : Type}

/-- `setupCamera` (App.tsx lines 29–50): on success the stream is attached
to the video element (external) and `isMobileDevice` is set; on failure
`errorMessage` is set to `'Error accessing camera: ' + error.message`. -/
def setupCamera (r : CameraResult) (s : AppState Frame) : AppState Frame :=
  match r with
  | .success m => { s with isMobileDevice := m }
  | .failure msg => { s with errorMessage := "Error accessing camera: " ++ msg }

/-- `loadModel` (App.tsx lines 52–61): sets `isModelLoading` to `true`,
awaits `tf.loadLayersModel`; on success stores the model handle and clears
the loading flag, on failure sets `errorMessage` to
`'Error loading model: ' + error.message` and clears the loading flag
(the model handle stays unset). -/
def loadModel (result : Except String Unit) (s : AppState Frame) : AppState Frame :=
  match result with
  | .ok _ => { s with isModelLoading := false, model := true }
  | .error msg =>
      { s with errorMessage := "Error loading model: " ++ msg, isModelLoading := false }

/-- `captureImage` (App.tsx lines 63–70): returns `null` when the video ref
is absent, otherwise a canvas snapshot of the current video frame.  The
environment supplies that sampled frame as an `Option Frame`. -/
def captureImage (videoFrame : Option Frame) : Option Frame :=
  videoFrame

/-- The `dotProduct` of `cosineSimilarity` (App.tsx line 83):
`a.reduce((sum, _, i) => sum + a[i] * b[i], 0)`, a fold over the index
range of `a`. -/
def dotProduct (a b : List ℝ) : ℝ :=
  (List.range a.length).foldl (fun sum i => sum + a.getD i 0 * b.getD i 0) 0

/-- The operand of `Math.sqrt` in `magnitudeA`/`magnitudeB` (App.tsx
lines 84–85): `a.reduce((sum, val) => sum + val * val, 0)`. -/
def sumOfSquares (a : List ℝ) : ℝ :=
  a.foldl (fun sum val => sum + val * val) 0

/-- A magnitude in `cosineSimilarity` (App.tsx lines 84–85):
`Math.sqrt(a.reduce((sum, val) => sum + val * val, 0))`. -/
noncomputable def magnitude (a : List ℝ) : ℝ :=
  Real.sqrt (sumOfSquares a)

/-- `cosineSimilarity` (App.tsx lines 82–87):
`dotProduct / (magnitudeA * magnitudeB)`. -/
noncomputable def cosineSimilarity (a b : List ℝ) : ℝ :=
  dotProduct a b / (magnitude a * magnitude b)

/-- `updateSimilarityScore` (App.tsx lines 89–98): reads the before
capture, samples the current frame; if either is missing it returns
without touching the state; otherwise it embeds both and stores their
cosine similarity in the `similarity` signal. -/
noncomputable def updateSimilarityScore (embed : Frame → List ℝ) (cur : Option Frame)
    (s : AppState Frame) : AppState Frame :=
  match s.beforeImageCapture, captureImage cur with
  | some before, some current =>
      { s with similarity := cosineSimilarity (embed before) (embed current) }
  | _, _ => s

/-- `captureBefore` (App.tsx lines 100–109): captures the current frame
and, if one was obtained, stores it as the before capture (the overlay
image element is also updated, a DOM effect outside this state).  The
handler itself has no precondition check. -/
def captureBefore (cur : Option Frame) (s : AppState Frame) : AppState Frame :=
  match captureImage cur with
  | some captured => { s with beforeImageCapture := some captured }
  | none => s

/-- `captureAfter` (App.tsx lines 111–119): returns immediately when no
before capture exists or the model handle is unset; otherwise captures the
current frame and, if one was obtained, stores it as the after capture,
runs a scoring cycle, and hides the live feed. -/
noncomputable def captureAfter (embed : Frame → List ℝ) (cur : Option Frame)
    (s : AppState Frame) : AppState Frame :=
  if s.beforeImageCapture.isNone || !s.model then s
  else
    match captureImage cur with
    | some captured =>
        { updateSimilarityScore embed cur { s with afterImageCapture := some captured }
            with showLiveFeed := false }
    | none => s

/-- `reset` (App.tsx lines 121–127): clears both captures (and hides the
overlay image, a DOM effect), zeroes the similarity signal, and shows the
live feed again. -/
def reset (s : AppState Frame) : AppState Frame :=
  { s with
    beforeImageCapture := none
    afterImageCapture := none
    similarity := 0
    showLiveFeed := true }

/-- `switchCamera` (App.tsx lines 129–132): toggles the facing mode
between `'user'` and `'environment'` and re-runs `setupCamera`. -/
def switchCamera (r : CameraResult) (s : AppState Frame) : AppState Frame :=
  setupCamera r
    { s with currentFacingMode :=
        if s.currentFacingMode = "user" then "environment" else "user" }

/-- Disabled condition of the Capture Before button (App.tsx line 194):
`!!beforeImageCapture() || isModelLoading()`. -/
def captureBeforeDisabled (s : AppState Frame) : Bool :=
  s.beforeImageCapture.isSome || s.isModelLoading

/-- Disabled condition of the Capture After button (App.tsx line 195):
`!beforeImageCapture() || !!afterImageCapture() || isModelLoading()`. -/
def captureAfterDisabled (s : AppState Frame) : Bool :=
  !s.beforeImageCapture.isSome || s.afterImageCapture.isSome || s.isModelLoading

/-- Disabled condition of the Reset button (App.tsx line 196):
`!beforeImageCapture() || isModelLoading()`. -/
def resetDisabled (s : AppState Frame) : Bool :=
  !s.beforeImageCapture.isSome || s.isModelLoading

/-- The Capture Before command at the presentation boundary: a click on a
disabled button does not invoke its handler, so the handler runs only when
the disabled condition of App.tsx line 194 is false.  (While
`isModelLoading` is true the button is not rendered at all, App.tsx
line 154, which the disabled condition also covers.) -/
def clickCaptureBefore (cur : Option Frame) (s : AppState Frame) : AppState Frame :=
  if captureBeforeDisabled s then s else captureBefore cur s

/-- The Capture After command at the presentation boundary (disabled
condition of App.tsx line 195 guards the handler). -/
noncomputable def clickCaptureAfter (embed : Frame → List ℝ) (cur : Option Frame)
    (s : AppState Frame) : AppState Frame :=
  if captureAfterDisabled s then s else captureAfter embed cur s

/-- The Reset command at the presentation boundary (disabled condition of
App.tsx line 196 guards the handler). -/
def clickReset (s : AppState Frame) : AppState Frame :=
  if resetDisabled s then s else reset s

/-- Guard of the scoring interval (App.tsx lines 134–139): the
`createEffect` installs the 300 ms `setInterval` running
`updateSimilarityScore` exactly when `beforeImageCapture() && showLiveFeed()`
holds, and `onCleanup` clears it when the condition changes.  A timer tick
can therefore fire only in states satisfying this condition. -/
def tickEnabled (s : AppState Frame) : Bool :=
  s.beforeImageCapture.isSome && s.showLiveFeed

/-- The capture phase of the spec's state machine, read off the stored
captures: `Live` (no before), `BeforeCaptured` (before only),
`AfterCaptured` (both). -/
inductive Phase where
  | live
  | beforeCaptured
  | afterCaptured
deriving DecidableEq

/-- Phase of an `AppState`. -/
def phase (s : AppState Frame) : Phase :=
  match s.beforeImageCapture, s.afterImageCapture with
  | none, _ => .live
  | some _, none => .beforeCaptured
  | some _, some _ => .afterCaptured

/-- One step of the component: a timer tick (enabled only under the
`createEffect` condition), a button click, or completion of an
asynchronous camera / model-load call. -/
inductive Step (embed : Frame → List ℝ) : AppState Frame → AppState Frame → Prop where
  | tick (cur : Option Frame) (s : AppState Frame) (h : tickEnabled s = true) :
      Step embed s (updateSimilarityScore embed cur s)
  | clickBefore (cur : Option Frame) (s : AppState Frame) :
      Step embed s (clickCaptureBefore cur s)
  | clickAfter (cur : Option Frame) (s : AppState Frame) :
      Step embed s (clickCaptureAfter embed cur s)
  | clickResetButton (s : AppState Frame) :
      Step embed s (clickReset s)
  | switch (r : CameraResult) (s : AppState Frame) :
      Step embed s (switchCamera r s)
  | cameraDone (r : CameraResult) (s : AppState Frame) :
      Step embed s (setupCamera r s)
  | loadDone (res : Except String Unit) (s : AppState Frame) :
      Step embed s (loadModel res s)

/-- States reachable from the initial state by component steps. -/
inductive Reachable (embed : Frame → List ℝ) : AppState Frame → Prop where
  | init (portrait : Bool) : Reachable embed (initState Frame portrait)
  | step {s s' : AppState Frame} :
      Reachable embed s → Step embed s s' → Reachable embed s'

/-- Modelled from the spec (Similarity Engine): `dot(a,b)` as the sum of
pointwise products of the two vectors. -/
def specDot (a b : List ℝ) : ℝ :=
  (List.zipWith (fun x y => x * y) a b).sum

/-- Modelled from the spec (Similarity Engine): the Euclidean norm `‖a‖`,
the square root of the sum of the squares of the entries. -/
noncomputable def specNorm (a : List ℝ) : ℝ :=
  Real.sqrt ((a.map (fun v => v * v)).sum)

/-- Background color ternary of the similarity indicator (App.tsx
line 204): red `#d93025` when the score is at most `0.5`, yellow
`#f9ab00` when it is at most `0.7`, green `#1e8e3e` otherwise. -/
noncomputable def similarityIndicatorColor (x : ℝ) : String :=
  if x ≤ 0.5 then "#d93025" else if x ≤ 0.7 then "#f9ab00" else "#1e8e3e"

/-- The presentation bands named by the spec. -/
inductive Band where
  | low
  | medium
  | high
deriving DecidableEq

/-- Modelled from the spec: the presentation band of a score — `low` for
scores at most `0.5`, `medium` up to `0.7`, `high` above. -/
noncomputable def scoreBand (x : ℝ) : Band :=
  if x ≤ 0.5 then .low else if x ≤ 0.7 then .medium else .high

/-! Theorems. -/

/-- Claim C1: in every state in which a before-frame already exists or the
embedder is not ready (per spec §4.4 the "not ready" condition is the
loading state, `isModelLoading`), the Capture Before command is a no-op —
the button's disabled condition (App.tsx line 194) prevents the handler
from running — and in particular a second capture leaves the first
before-frame stored, not the second. -/
theorem clickCaptureBefore_guard {Frame : Type} :
    (∀ (cur : Option Frame) (s : AppState Frame),
      s.beforeImageCapture ≠ none ∨ s.isModelLoading = true →
      clickCaptureBefore cur s = s) ∧
    (∀ (f1 f2 : Frame) (s : AppState Frame),
      s.beforeImageCapture = none → s.isModelLoading = false →
      (clickCaptureBefore (some f2) (clickCaptureBefore (some f1) s)).beforeImageCapture
        = some f1) := by
  constructor
  · intro cur s h
    have hd : captureBeforeDisabled s = true := by
      unfold captureBeforeDisabled
      rcases h with h | h
      · simp [Option.isSome_iff_ne_none, h]
      · simp [h]
    simp [clickCaptureBefore, hd]
  · intro f1 f2 s h1 h2
    simp [clickCaptureBefore, captureBeforeDisabled, captureBefore, captureImage, h1, h2]

/-- Witness for C1 at concrete states over `Frame := ℕ`. -/
theorem clickCaptureBefore_guard_witness :
    clickCaptureBefore (some 7)
        { initState ℕ false with beforeImageCapture := some 5, isModelLoading := false } =
      { initState ℕ false with beforeImageCapture := some 5, isModelLoading := false } ∧
    (clickCaptureBefore (some 7) (clickCaptureBefore (some 5)
        { initState ℕ false with isModelLoading := false })).beforeImageCapture = some 5 := by
  constructor
  · exact clickCaptureBefore_guard.1 (some 7) _ (Or.inl (by simp))
  · exact clickCaptureBefore_guard.2 5 7 _ rfl rfl

/-- Claim C3: from every prior state, `reset` succeeds and yields the Live
state — both captures cleared, similarity score zeroed, live feed shown. -/
theorem reset_to_live {Frame : Type} : ∀ s : AppState Frame,
    phase (reset s) = Phase.live ∧
    (reset s).beforeImageCapture = none ∧
    (reset s).afterImageCapture = none ∧
    (reset s).similarity = 0 ∧
    (reset s).showLiveFeed = true := by
  intro s
  exact ⟨rfl, rfl, rfl, rfl, rfl⟩

/-- Claim C7: when no before-frame exists or the model handle is unset,
`captureAfter` returns without storing an after-frame, changing the score,
or hiding the live feed (the whole state is unchanged). -/
theorem captureAfter_noop {Frame : Type} (embed : Frame → List ℝ) :
    ∀ (cur : Option Frame) (s : AppState Frame),
      s.beforeImageCapture = none ∨ s.model = false →
      captureAfter embed cur s = s := by
  intro cur s h
  rcases h with h | h <;> simp [captureAfter, h]

/-- Witness for C7 at a concrete state over `Frame := ℕ`. -/
theorem captureAfter_noop_witness :
    captureAfter (fun _ : ℕ => [(1 : ℝ)]) (some 5) (initState ℕ false) = initState ℕ false :=
  captureAfter_noop _ (some 5) (initState ℕ false) (Or.inl rfl)

/-- Claim C8: a scoring cycle with no before-frame or no sampled live
frame returns silently with the state (in particular the score) unchanged;
it computes and writes a score only when a before-frame exists, and then
the written score is the cosine similarity of the two embeddings. -/
theorem updateSimilarityScore_guard {Frame : Type} (embed : Frame → List ℝ) :
    (∀ (cur : Option Frame) (s : AppState Frame),
      s.beforeImageCapture = none ∨ cur = none →
      updateSimilarityScore embed cur s = s) ∧
    (∀ (cur : Option Frame) (s : AppState Frame),
      updateSimilarityScore embed cur s ≠ s → s.beforeImageCapture ≠ none) ∧
    (∀ (b c : Frame) (s : AppState Frame),
      s.beforeImageCapture = some b →
      (updateSimilarityScore embed (some c) s).similarity
        = cosineSimilarity (embed b) (embed c)) := by
  have h1 : ∀ (cur : Option Frame) (s : AppState Frame),
      s.beforeImageCapture = none ∨ cur = none →
      updateSimilarityScore embed cur s = s := by
    intro cur s h
    rcases h with h | h
    · rcases cur with _ | c <;> simp [updateSimilarityScore, captureImage, h]
    · rcases hb : s.beforeImageCapture with _ | b <;>
        simp [updateSimilarityScore, captureImage, h, hb]
  refine ⟨h1, ?_, ?_⟩
  · intro cur s hne hnone
    exact hne (h1 cur s (Or.inl hnone))
  · intro b c s h
    simp [updateSimilarityScore, captureImage, h]

/-- Witness for C8 at concrete states over `Frame := ℕ`. -/
theorem updateSimilarityScore_guard_witness :
    updateSimilarityScore (fun _ : ℕ => [(1 : ℝ)]) none (initState ℕ false) = initState ℕ false ∧
    (updateSimilarityScore (fun _ : ℕ => [(1 : ℝ)]) (some 2)
        { initState ℕ false with beforeImageCapture := some 1 }).similarity
      = cosineSimilarity [(1 : ℝ)] [(1 : ℝ)] := by
  constructor
  · exact (updateSimilarityScore_guard _).1 none _ (Or.inr rfl)
  · exact (updateSimilarityScore_guard _).2.2 1 2 _ rfl

/-- Claim C9: `switchCamera` toggles the facing mode and reacquires the
stream, leaving the capture state — stored before-frame, after-frame, and
last similarity score — unchanged (as well as the live-feed flag),
whatever the camera reacquisition outcome. -/
theorem switchCamera_frame {Frame : Type} :
    ∀ (r : CameraResult) (s : AppState Frame),
      (switchCamera r s).currentFacingMode
        = (if s.currentFacingMode = "user" then "environment" else "user") ∧
      (switchCamera r s).beforeImageCapture = s.beforeImageCapture ∧
      (switchCamera r s).afterImageCapture = s.afterImageCapture ∧
      (switchCamera r s).similarity = s.similarity ∧
      (switchCamera r s).showLiveFeed = s.showLiveFeed := by
  intro r s
  cases r <;> exact ⟨rfl, rfl, rfl, rfl, rfl⟩

/-- Claim C10: `reset` leaves the facing mode and the error message (and
the loading flag, model handle, and device flags) unchanged — an error
message present before reset is still present after it. -/
theorem reset_frame_conditions {Frame : Type} : ∀ s : AppState Frame,
    (reset s).currentFacingMode = s.currentFacingMode ∧
    (reset s).errorMessage = s.errorMessage ∧
    (reset s).isModelLoading = s.isModelLoading ∧
    (reset s).model = s.model ∧
    (reset s).isMobileDevice = s.isMobileDevice ∧
    (reset s).isPortrait = s.isPortrait := by
  intro s
  exact ⟨rfl, rfl, rfl, rfl, rfl, rfl⟩

/-- Counterexample to the C2 claim as stated: after a failed model load
(`isModelLoading` is false, `errorMessage` set, model handle unset) the
Capture Before command is NOT refused — its disabled condition (App.tsx
line 194) checks only `isModelLoading` and an existing before-frame, not
the model handle, so with a live frame available the click stores a
before-frame and changes the state. -/
theorem loadFailure_captureBefore_not_refused :
    clickCaptureBefore (some 0) (loadModel (Except.error "network error") (initState ℕ false))
      ≠ loadModel (Except.error "network error") (initState ℕ false) := by
  intro h
  have hb := congrArg AppState.beforeImageCapture h
  simp [clickCaptureBefore, captureBeforeDisabled, captureBefore, captureImage,
    loadModel, initState] at hb

/-- Claim C2 (amended): if the model load fails then afterwards
`isModelLoading` is false, `errorMessage` is a non-empty string, and
`captureAfter` is refused for every subsequent invocation while the model
handle stays unset; `captureBefore`, however, is not refused. -/
theorem loadModel_failure_spec {Frame : Type} (embed : Frame → List ℝ) (msg : String)
    (s : AppState Frame) (hm : s.model = false) :
    (loadModel (Except.error msg) s).isModelLoading = false ∧
    (loadModel (Except.error msg) s).errorMessage = "Error loading model: " ++ msg ∧
    (loadModel (Except.error msg) s).errorMessage ≠ "" ∧
    ∀ cur : Option Frame,
      captureAfter embed cur (loadModel (Except.error msg) s)
        = loadModel (Except.error msg) s := by
  refine ⟨rfl, rfl, ?_, ?_⟩
  · intro h
    have hl := congrArg String.length h
    simp [loadModel, String.length_append] at hl
    exact absurd hl.1 (by decide)
  · intro cur
    simp [captureAfter, loadModel, hm]

/-- Witness for the amended C2 at a concrete failed-load state over
`Frame := ℕ`. -/
theorem loadModel_failure_spec_witness :
    (loadModel (Except.error "network error") (initState ℕ false)).isModelLoading = false ∧
    captureAfter (fun _ : ℕ => [(1 : ℝ)]) (some 3)
        (loadModel (Except.error "network error") (initState ℕ false))
      = loadModel (Except.error "network error") (initState ℕ false) := by
  have h := loadModel_failure_spec (fun _ : ℕ => [(1 : ℝ)]) "network error"
    (initState ℕ false) rfl
  exact ⟨h.1, h.2.2.2 (some 3)⟩

/-- A scoring cycle never touches the stored captures or the live-feed
flag: `updateSimilarityScore` writes only the `similarity` signal. -/
theorem updateSimilarityScore_preserves {Frame : Type} (embed : Frame → List ℝ)
    (cur : Option Frame) (s : AppState Frame) :
    (updateSimilarityScore embed cur s).afterImageCapture = s.afterImageCapture ∧
    (updateSimilarityScore embed cur s).showLiveFeed = s.showLiveFeed := by
  rcases hb : s.beforeImageCapture with _ | b <;>
    rcases hc : cur with _ | c <;>
      simp [updateSimilarityScore, captureImage, hb, hc]

/-- A `captureAfter` whose preconditions hold and which obtains a frame
hides the live feed. -/
theorem captureAfter_success_hides {Frame : Type} (embed : Frame → List ℝ) (f : Frame)
    (s : AppState Frame) (hb : s.beforeImageCapture.isSome = true) (hm : s.model = true) :
    (captureAfter embed (some f) s).showLiveFeed = false := by
  have hg : (s.beforeImageCapture.isNone || !s.model) = false := by
    rcases hs : s.beforeImageCapture with _ | b
    · rw [hs] at hb
      exact absurd hb (by simp)
    · simp [hm]
  unfold captureAfter
  rw [hg]
  simp [captureImage]

/-- Every component step preserves the live-feed invariant: whenever an
after-frame is stored, the live feed is hidden. -/
theorem step_preserves_liveFeedInv {Frame : Type} {embed : Frame → List ℝ}
    {s s' : AppState Frame} (hstep : Step embed s s')
    (ih : s.afterImageCapture.isSome = true → s.showLiveFeed = false) :
    s'.afterImageCapture.isSome = true → s'.showLiveFeed = false := by
  cases hstep with
  | tick cur ht =>
      have hp := updateSimilarityScore_preserves embed cur s
      rw [hp.1, hp.2]
      exact ih
  | clickBefore cur =>
      by_cases hd : captureBeforeDisabled s = true
      · simpa [clickCaptureBefore, hd] using ih
      · rcases hc : cur with _ | c <;>
          simpa [clickCaptureBefore, hd, captureBefore, captureImage, hc] using ih
  | clickAfter cur =>
      by_cases hd : captureAfterDisabled s = true
      · simpa [clickCaptureAfter, hd] using ih
      · by_cases hg : (s.beforeImageCapture.isNone || !s.model) = true
        · simpa [clickCaptureAfter, hd, captureAfter, hg] using ih
        · rcases hc : cur with _ | c
          · simpa [clickCaptureAfter, hd, captureAfter, hg, captureImage, hc] using ih
          · intro _
            have hb : s.beforeImageCapture.isSome = true := by
              rcases hs : s.beforeImageCapture with _ | b
              · rw [Bool.not_eq_true] at hg
                rw [hs] at hg
                exact absurd hg (by simp)
              · rfl
            have hm : s.model = true := by
              rcases ht : s.model with _ | _
              · rw [Bool.not_eq_true] at hg
                rw [ht] at hg
                exact absurd hg (by simp)
              · rfl
            simp [clickCaptureAfter, hd, captureAfter_success_hides embed c s hb hm]
  | clickResetButton =>
      by_cases hd : resetDisabled s = true
      · simpa [clickReset, hd] using ih
      · intro ha
        exact absurd ha (by simp [clickReset, hd, reset])
  | switch r =>
      cases r <;> simpa [switchCamera, setupCamera] using ih
  | cameraDone r =>
      cases r <;> simpa [setupCamera] using ih
  | loadDone res =>
      cases res <;> simpa [loadModel] using ih

/-- Invariant of the component: in every reachable state, whenever an
after-frame is stored the live feed is hidden (so the scoring-interval
condition is false).  It holds initially and is preserved by every
step. -/
theorem reachable_liveFeedInv {Frame : Type} {embed : Frame → List ℝ}
    {s : AppState Frame} (h : Reachable embed s) :
    s.afterImageCapture.isSome = true → s.showLiveFeed = false := by
  induction h with
  | init portrait => simp [initState]
  | step hr hstep ih => exact step_preserves_liveFeedInv hstep ih

/-- Claim C4: once `captureAfter` succeeds the scoring-interval condition
(App.tsx line 135) is false, so no further tick step is enabled; and in
every reachable state whose phase is not the scorable `BeforeCaptured`
phase (it is `AfterCaptured`, or `Live` again after reset), no tick step
that updates the similarity score is enabled. -/
theorem capture_freeze_stops_ticks {Frame : Type} (embed : Frame → List ℝ) :
    (∀ (s : AppState Frame) (f : Frame),
      s.beforeImageCapture.isSome = true → s.model = true →
      tickEnabled (captureAfter embed (some f) s) = false) ∧
    (∀ s : AppState Frame, Reachable embed s → phase s ≠ Phase.beforeCaptured →
      tickEnabled s = false) := by
  constructor
  · intro s f hb hm
    simp [tickEnabled, captureAfter_success_hides embed f s hb hm]
  · intro s hr hp
    rcases hb : s.beforeImageCapture with _ | b
    · simp [tickEnabled, hb]
    · rcases ha : s.afterImageCapture with _ | a
      · exact absurd (by simp [phase, hb, ha]) hp
      · have hl := reachable_liveFeedInv hr (by simp [ha])
        simp [tickEnabled, hl]

/-- Witness for C4: a concrete successful `captureAfter` disables ticks,
and the initial state (phase `Live`) has ticks disabled. -/
theorem capture_freeze_stops_ticks_witness :
    tickEnabled (captureAfter (fun _ : ℕ => [(1 : ℝ)]) (some 2)
      { initState ℕ false with
          beforeImageCapture := some 1, isModelLoading := false, model := true }) = false ∧
    tickEnabled (initState ℕ false) = false := by
  constructor
  · exact (capture_freeze_stops_ticks (fun _ : ℕ => [(1 : ℝ)])).1 _ 2 rfl rfl
  · exact (capture_freeze_stops_ticks (fun _ : ℕ => [(1 : ℝ)])).2 _
      (Reachable.init false) (by simp [phase, initState])

/-- Folding `+ f x` over a list starting from `c` yields `c` plus the sum
of the mapped list. -/
theorem foldl_add_eq_sum {α : Type} (f : α → ℝ) (l : List α) (c : ℝ) :
    l.foldl (fun sum x => sum + f x) c = c + (l.map f).sum := by
  induction l generalizing c with
  | nil => simp
  | cons a t ih => simp [ih, add_assoc]

/-- The reduce of `dotProduct` as a sum over the index range of `a`. -/
theorem dotProduct_eq_sum (a b : List ℝ) :
    dotProduct a b
      = ((List.range a.length).map (fun i => a.getD i 0 * b.getD i 0)).sum := by
  unfold dotProduct
  rw [foldl_add_eq_sum]
  simp

/-- The reduce of a magnitude operand as a sum of squares. -/
theorem sumOfSquares_eq_sum (a : List ℝ) :
    sumOfSquares a = (a.map (fun v => v * v)).sum := by
  unfold sumOfSquares
  rw [foldl_add_eq_sum]
  simp

/-- A sum of squares is nonnegative. -/
theorem sumOfSquares_nonneg (a : List ℝ) : 0 ≤ sumOfSquares a := by
  rw [sumOfSquares_eq_sum]
  apply List.sum_nonneg
  intro x hx
  rw [List.mem_map] at hx
  obtain ⟨v, _, rfl⟩ := hx
  exact mul_self_nonneg v

/-- A mapped sum over a list equals the corresponding sum over its index
range. -/
theorem sum_map_eq_sum_range (f : ℝ → ℝ) (a : List ℝ) :
    (a.map f).sum = ((List.range a.length).map (fun i => f (a.getD i 0))).sum := by
  induction a with
  | nil => simp
  | cons x t ih =>
      rw [List.map_cons, List.sum_cons, ih, List.length_cons, List.range_succ_eq_map,
        List.map_cons, List.map_map, List.sum_cons]
      congr 1

/-- On equal-length vectors the source's index-range reduce computes the
pointwise-product sum of the spec. -/
theorem dotProduct_eq_zipWith (a b : List ℝ) (h : a.length = b.length) :
    dotProduct a b = (List.zipWith (fun x y => x * y) a b).sum := by
  induction a generalizing b with
  | nil => simp [dotProduct]
  | cons x t ih =>
      cases b with
      | nil => simp at h
      | cons y u =>
          have ht : t.length = u.length := by simpa using h
          have hzip : List.zipWith (fun x y => x * y) (x :: t) (y :: u)
              = (x * y) :: List.zipWith (fun x y => x * y) t u := rfl
          rw [hzip, List.sum_cons, dotProduct_eq_sum, List.length_cons,
            List.range_succ_eq_map, List.map_cons, List.map_map, List.sum_cons]
          simp only [Function.comp_def, List.getD_cons_zero, List.getD_cons_succ]
          rw [← dotProduct_eq_sum, ih u ht]

/-- On equal-length vectors the dot product is symmetric. -/
theorem dotProduct_comm (a b : List ℝ) (h : a.length = b.length) :
    dotProduct a b = dotProduct b a := by
  rw [dotProduct_eq_sum, dotProduct_eq_sum, h]
  congr 1
  apply List.map_congr_left
  intro i _
  exact mul_comm _ _

/-- The dot product of a vector with itself is its sum of squares. -/
theorem dotProduct_self (a : List ℝ) : dotProduct a a = sumOfSquares a := by
  rw [dotProduct_eq_sum, sumOfSquares_eq_sum, sum_map_eq_sum_range (fun v => v * v) a]

/-- A magnitude squared recovers the sum of squares. -/
theorem magnitude_mul_self (a : List ℝ) : magnitude a * magnitude a = sumOfSquares a :=
  Real.mul_self_sqrt (sumOfSquares_nonneg a)

/-- A nonzero magnitude forces a nonzero sum of squares. -/
theorem sumOfSquares_ne_zero {a : List ℝ} (h : magnitude a ≠ 0) :
    sumOfSquares a ≠ 0 := by
  intro h0
  apply h
  unfold magnitude
  rw [h0, Real.sqrt_zero]

/-- Claim C5: for equal-length embeddings with nonzero magnitudes,
`cosineSimilarity` is the spec's `dot(a,b) / (‖a‖·‖b‖)`, it is symmetric,
and the self-similarity is exactly `1`. -/
theorem cosineSimilarity_spec (a b : List ℝ) (hlen : a.length = b.length)
    (ha : magnitude a ≠ 0) (hb : magnitude b ≠ 0) :
    cosineSimilarity a b = specDot a b / (specNorm a * specNorm b) ∧
    cosineSimilarity a b = cosineSimilarity b a ∧
    cosineSimilarity a a = 1 := by
  refine ⟨?_, ?_, ?_⟩
  · unfold cosineSimilarity specDot specNorm magnitude
    rw [← sumOfSquares_eq_sum, ← sumOfSquares_eq_sum, dotProduct_eq_zipWith a b hlen]
  · unfold cosineSimilarity
    rw [dotProduct_comm a b hlen, mul_comm]
  · unfold cosineSimilarity
    rw [dotProduct_self, magnitude_mul_self]
    exact div_self (sumOfSquares_ne_zero ha)

/-- The dot product of two pairs, evaluated. -/
theorem dotProduct_pair (x0 x1 y0 y1 : ℝ) :
    dotProduct [x0, x1] [y0, y1] = x0 * y0 + x1 * y1 := by
  have hr : List.range ([x0, x1].length) = [0, 1] := rfl
  unfold dotProduct
  rw [hr]
  simp [List.foldl_cons, List.foldl_nil, List.getD_cons_zero, List.getD_cons_succ]

/-- The sum of squares of a pair, evaluated. -/
theorem sumOfSquares_pair (x0 x1 : ℝ) :
    sumOfSquares [x0, x1] = x0 * x0 + x1 * x1 := by
  unfold sumOfSquares
  simp [List.foldl_cons, List.foldl_nil]

/-- A pair on the unit circle has magnitude `1`. -/
theorem magnitude_pair_one (x0 x1 : ℝ) (h : x0 * x0 + x1 * x1 = 1) :
    magnitude [x0, x1] = 1 := by
  unfold magnitude
  rw [sumOfSquares_pair, h, Real.sqrt_one]

/-- Cosine similarity of two unit pairs is their dot product. -/
theorem cosineSimilarity_pair (x0 x1 y0 y1 : ℝ) (hx : x0 * x0 + x1 * x1 = 1)
    (hy : y0 * y0 + y1 * y1 = 1) :
    cosineSimilarity [x0, x1] [y0, y1] = x0 * y0 + x1 * y1 := by
  unfold cosineSimilarity
  rw [dotProduct_pair, magnitude_pair_one x0 x1 hx, magnitude_pair_one y0 y1 hy]
  norm_num

/-- Witness for C5 at the concrete embeddings `[1,0]` and `[0.6,0.8]`. -/
theorem cosineSimilarity_spec_witness :
    cosineSimilarity [(1 : ℝ), 0] [(0.6 : ℝ), 0.8]
        = cosineSimilarity [(0.6 : ℝ), 0.8] [(1 : ℝ), 0] ∧
    cosineSimilarity [(1 : ℝ), 0] [(1 : ℝ), 0] = 1 := by
  have h1 : magnitude [(1 : ℝ), 0] = 1 := magnitude_pair_one 1 0 (by norm_num)
  have h2 : magnitude [(0.6 : ℝ), 0.8] = 1 := magnitude_pair_one 0.6 0.8 (by norm_num)
  have h := cosineSimilarity_spec [(1 : ℝ), 0] [(0.6 : ℝ), 0.8] rfl
    (by rw [h1]; exact one_ne_zero) (by rw [h2]; exact one_ne_zero)
  exact ⟨h.2.1, h.2.2⟩

/-- A score at most `0.5` lands in the low band and the red indicator. -/
theorem scoreBand_low {x : ℝ} (h : x ≤ 0.5) :
    scoreBand x = Band.low ∧ similarityIndicatorColor x = "#d93025" := by
  constructor
  · unfold scoreBand
    rw [if_pos h]
  · unfold similarityIndicatorColor
    rw [if_pos h]

/-- A score in `(0.5, 0.7]` lands in the medium band and the yellow
indicator. -/
theorem scoreBand_medium {x : ℝ} (h1 : 0.5 < x) (h2 : x ≤ 0.7) :
    scoreBand x = Band.medium ∧ similarityIndicatorColor x = "#f9ab00" := by
  constructor
  · unfold scoreBand
    rw [if_neg (not_le.mpr h1), if_pos h2]
  · unfold similarityIndicatorColor
    rw [if_neg (not_le.mpr h1), if_pos h2]

/-- A score above `0.7` lands in the high band and the green indicator. -/
theorem scoreBand_high {x : ℝ} (h : 0.7 < x) :
    scoreBand x = Band.high ∧ similarityIndicatorColor x = "#1e8e3e" := by
  have h5 : ¬x ≤ 0.5 := not_le.mpr (by linarith)
  have h7 : ¬x ≤ 0.7 := not_le.mpr h
  constructor
  · unfold scoreBand
    rw [if_neg h5, if_neg h7]
  · unfold similarityIndicatorColor
    rw [if_neg h5, if_neg h7]

/-- Claim C6: the presentation band of a score is low when at most `0.5`,
medium when in `(0.5, 0.7]`, high above `0.7` (matching the indicator's
red/yellow/green ternary), and the three spec scenarios hold:
`[1,0]` vs `[1,0]` scores `1.0` (high), `[1,0]` vs `[0,1]` scores `0.0`
(low), `[1,0]` vs `[0.6,0.8]` scores `0.6` (medium). -/
theorem similarity_banding :
    (∀ x : ℝ,
      (x ≤ 0.5 → scoreBand x = Band.low ∧ similarityIndicatorColor x = "#d93025") ∧
      (0.5 < x → x ≤ 0.7 →
        scoreBand x = Band.medium ∧ similarityIndicatorColor x = "#f9ab00") ∧
      (0.7 < x → scoreBand x = Band.high ∧ similarityIndicatorColor x = "#1e8e3e")) ∧
    cosineSimilarity [(1 : ℝ), 0] [(1 : ℝ), 0] = 1 ∧
    scoreBand (cosineSimilarity [(1 : ℝ), 0] [(1 : ℝ), 0]) = Band.high ∧
    cosineSimilarity [(1 : ℝ), 0] [(0 : ℝ), 1] = 0 ∧
    scoreBand (cosineSimilarity [(1 : ℝ), 0] [(0 : ℝ), 1]) = Band.low ∧
    cosineSimilarity [(1 : ℝ), 0] [(0.6 : ℝ), 0.8] = 0.6 ∧
    scoreBand (cosineSimilarity [(1 : ℝ), 0] [(0.6 : ℝ), 0.8]) = Band.medium := by
  have hc11 : cosineSimilarity [(1 : ℝ), 0] [(1 : ℝ), 0] = 1 := by
    rw [cosineSimilarity_pair 1 0 1 0 (by norm_num) (by norm_num)]
    norm_num
  have hc01 : cosineSimilarity [(1 : ℝ), 0] [(0 : ℝ), 1] = 0 := by
    rw [cosineSimilarity_pair 1 0 0 1 (by norm_num) (by norm_num)]
    norm_num
  have hc68 : cosineSimilarity [(1 : ℝ), 0] [(0.6 : ℝ), 0.8] = 0.6 := by
    rw [cosineSimilarity_pair 1 0 0.6 0.8 (by norm_num) (by norm_num)]
    norm_num
  refine ⟨fun x => ⟨fun h => scoreBand_low h, fun h1 h2 => scoreBand_medium h1 h2,
    fun h => scoreBand_high h⟩, hc11, ?_, hc01, ?_, hc68, ?_⟩
  · rw [hc11]
    exact (scoreBand_high (by norm_num)).1
  · rw [hc01]
    exact (scoreBand_low (by norm_num)).1
  · rw [hc68]
    exact (scoreBand_medium (by norm_num) (by norm_num)).1

/-- Witness for C6's banded implications at concrete scores. -/
theorem similarity_banding_witness :
    scoreBand (0.3 : ℝ) = Band.low ∧
    scoreBand (0.6 : ℝ) = Band.medium ∧
    scoreBand (0.9 : ℝ) = Band.high :=
  ⟨((similarity_banding.1 0.3).1 (by norm_num)).1,
   ((similarity_banding.1 0.6).2.1 (by norm_num) (by norm_num)).1,
   ((similarity_banding.1 0.9).2.2 (by norm_num)).1⟩

end ImageSimilarity
